import Mathlib

/-!
Verification of the interop boundary layer of the mrwebrtc repository:
the video track source observer lifecycle
(`src/libs/mrwebrtc/src/media/video_track_source.cpp`) and the data
channel interop surface
(`src/libs/Microsoft.MixedReality.WebRTC.Native/include/data_channel_interop.h`).

Pointers are modelled as natural numbers (`0` = `nullptr`); nullable
function pointers as `Option Nat`. Stateful C++ methods become explicit
state-passing Lean functions that additionally return the list of
boundary-relevant events (lock acquisition/release, native sink
registration calls, observer construction/destruction) they perform, in
source order, so that lock discipline and call counts can be stated.
-/

namespace WebRTC

/-- `rtc::VideoSinkWants`: sink settings passed to
`AddOrUpdateSink`. Only the field set by the source
(`rotation_applied`) is modelled. -/
structure VideoSinkWants where
  rotation_applied : Bool
deriving DecidableEq, Repr

/-- The native `webrtc::VideoTrackSourceInterface` as seen through the
two calls the wrapper makes on it: its current set of registered sinks,
each a sink identity paired with the `VideoSinkWants` it was registered
with. -/
structure NativeVideoSource where
  sinks : List (Nat × VideoSinkWants)
deriving DecidableEq, Repr

/-- `VideoTrackSourceInterface::AddOrUpdateSink(sink, wants)`: update the
settings if the sink is already registered, otherwise append it. -/
def NativeVideoSource.AddOrUpdateSink (src : NativeVideoSource) (sinkId : Nat)
    (wants : VideoSinkWants) : NativeVideoSource :=
  if src.sinks.any (fun p => p.1 = sinkId) then
    ⟨src.sinks.map (fun p => if p.1 = sinkId then (sinkId, wants) else p)⟩
  else
    ⟨src.sinks ++ [(sinkId, wants)]⟩

/-- `VideoTrackSourceInterface::RemoveSink(sink)`: drop the sink from the
registered set. -/
def NativeVideoSource.RemoveSink (src : NativeVideoSource) (sinkId : Nat) :
    NativeVideoSource :=
  ⟨src.sinks.filter (fun p => p.1 ≠ sinkId)⟩

/-- Whether a given sink identity is currently registered with the native
source. -/
def NativeVideoSource.hasSink (src : NativeVideoSource) (sinkId : Nat) : Bool :=
  src.sinks.any (fun p => p.1 = sinkId)

/-- The `VideoFrameObserver` held by `VideoTrackSource::observer_`: an
instance identity (the heap address of the `make_unique` allocation,
modelled as a fresh number) plus the frame callback stored in it by
`VideoFrameObserver::SetCallback`. `none` models a null
`I420AFrameReadyCallback`. -/
structure VideoFrameObserver where
  id : Nat
  callback : Option Nat
deriving DecidableEq, Repr

/-- The state of a `VideoTrackSource` wrapper: the native source
`source_`, the owned observer `observer_` (`none` = empty `unique_ptr`),
and a freshness counter supplying the identity of the next observer
allocation. -/
structure VideoTrackSource where
  source_ : NativeVideoSource
  observer_ : Option VideoFrameObserver
  nextObserverId : Nat
deriving DecidableEq, Repr

/-- State of a freshly constructed `VideoTrackSource`: the constructor
initializes `observer_` to the empty `unique_ptr` and registers nothing
with the native source. -/
def VideoTrackSource.initial : VideoTrackSource :=
  ⟨⟨[]⟩, none, 0⟩

/-- Boundary-relevant events emitted by the wrapper's methods, in source
order. -/
inductive Event : Type
  | lockAcquire : Event
  | lockRelease : Event
  | constructObserver : Nat → Event
  | destroyObserver : Nat → Event
  | addOrUpdateSink : Nat → VideoSinkWants → Event
  | removeSink : Nat → Event
  | storeCallback : Nat → Event
deriving DecidableEq, Repr

/-- `VideoTrackSource::SetCallback(I420AFrameReadyCallback callback)`,
translated line by line from `video_track_source.cpp`:
`std::lock_guard` acquires `observer_mutex_` for the whole body; if
`callback` is non-null, lazily construct the observer, register it with
`AddOrUpdateSink` under sink settings with `rotation_applied = true`, and
store the callback in it; if `callback` is null and an observer exists,
`RemoveSink` it and reset the `unique_ptr`. Returns the new state and the
event trace. -/
def VideoTrackSource.SetCallback (st : VideoTrackSource) (callback : Option Nat) :
    VideoTrackSource × List Event :=
  match callback with
  | some cb =>
    match st.observer_ with
    | none =>
      let wants : VideoSinkWants := ⟨true⟩
      let obsId := st.nextObserverId
      ( { source_ := st.source_.AddOrUpdateSink obsId wants,
          observer_ := some ⟨obsId, some cb⟩,
          nextObserverId := st.nextObserverId + 1 },
        [Event.lockAcquire, Event.constructObserver obsId,
         Event.addOrUpdateSink obsId wants, Event.storeCallback cb,
         Event.lockRelease] )
    | some obs =>
      ( { st with observer_ := some ⟨obs.id, some cb⟩ },
        [Event.lockAcquire, Event.storeCallback cb, Event.lockRelease] )
  | none =>
    match st.observer_ with
    | some obs =>
      ( { st with source_ := st.source_.RemoveSink obs.id, observer_ := none },
        [Event.lockAcquire, Event.removeSink obs.id,
         Event.destroyObserver obs.id, Event.lockRelease] )
    | none => (st, [Event.lockAcquire, Event.lockRelease])

/-- `VideoTrackSource::~VideoTrackSource()`: if an observer is attached,
`RemoveSink` it from the native source; then (implicitly, as the
`unique_ptr` member is destroyed) the observer itself is destroyed.
Returns the final native source and the event trace. -/
def VideoTrackSource.destructor (st : VideoTrackSource) :
    NativeVideoSource × List Event :=
  match st.observer_ with
  | some obs =>
    (st.source_.RemoveSink obs.id, [Event.removeSink obs.id, Event.destroyObserver obs.id])
  | none => (st.source_, [])

/-- Native frame delivery for this track source: the native pipeline
hands the frame to each registered sink; a sink that is the wrapper's
observer forwards it to the stored frame callback. Returns the list of
frame callbacks invoked. -/
def VideoTrackSource.deliverFrame (st : VideoTrackSource) : List Nat :=
  match st.observer_ with
  | some obs =>
    st.source_.sinks.filterMap (fun p => if p.1 = obs.id then obs.callback else none)
  | none => []

/-- Whether an event is one of the native sink registration calls
(`AddOrUpdateSink` / `RemoveSink`). -/
def Event.isNativeSinkCall : Event → Bool
  | Event.addOrUpdateSink _ _ => true
  | Event.removeSink _ => true
  | _ => false

/-- Fold over a trace tracking whether the lock is held; `true` iff no
native sink call occurs while the lock is held. -/
def noNativeCallUnderLockAux : Bool → List Event → Bool
  | _, [] => true
  | _, Event.lockAcquire :: rest => noNativeCallUnderLockAux true rest
  | _, Event.lockRelease :: rest => noNativeCallUnderLockAux false rest
  | held, e :: rest =>
    (!(e.isNativeSinkCall && held)) && noNativeCallUnderLockAux held rest

/-- `true` iff no native sink registration call in the trace happens
while the exclusive lock is held. -/
def noNativeCallUnderLock (tr : List Event) : Bool :=
  noNativeCallUnderLockAux false tr

/-- Fold over a trace tracking whether the lock is held; `true` iff every
native sink call occurs while the lock is held. -/
def allNativeCallsUnderLockAux : Bool → List Event → Bool
  | _, [] => true
  | _, Event.lockAcquire :: rest => allNativeCallsUnderLockAux true rest
  | _, Event.lockRelease :: rest => allNativeCallsUnderLockAux false rest
  | held, e :: rest =>
    (!e.isNativeSinkCall || held) && allNativeCallsUnderLockAux held rest

/-- `true` iff every native sink registration call in the trace happens
while the exclusive lock is held. -/
def allNativeCallsUnderLock (tr : List Event) : Bool :=
  allNativeCallsUnderLockAux false tr

/-- Well-formedness invariant of a `VideoTrackSource` wrapper state: the
observer exists iff it is registered as the (sole) sink with the native
source, and any existing observer's identity is below the freshness
counter. -/
def VideoTrackSource.wf (st : VideoTrackSource) : Bool :=
  match st.observer_ with
  | some obs =>
    (st.source_.sinks.map Prod.fst == [obs.id]) && (obs.id < st.nextObserverId)
  | none => st.source_.sinks == []

/-- `VideoSourceAdapter`'s observer slot (`webrtc::ObserverInterface*
observer_`), from `video_track_source.cpp`: a raw pointer, `0` =
`nullptr`. Only the observer slot is modelled; the wrapped
`source_`/`state_` members are not touched by the two methods under
study. -/
structure VideoSourceAdapter where
  observer_ : Nat
deriving DecidableEq, Repr

/-- `VideoSourceAdapter::RegisterObserver(observer)`: unconditionally
store the observer pointer, replacing any previous one. -/
def VideoSourceAdapter.RegisterObserver (a : VideoSourceAdapter) (observer : Nat) :
    VideoSourceAdapter :=
  { a with observer_ := observer }

/-- `VideoSourceAdapter::UnregisterObserver(observer)`:
`RTC_DCHECK_EQ(observer_, observer)` then clear the slot. Returns the new
state together with whether the debug assertion held. -/
def VideoSourceAdapter.UnregisterObserver (a : VideoSourceAdapter) (observer : Nat) :
    VideoSourceAdapter × Bool :=
  ({ a with observer_ := 0 }, a.observer_ = observer)

/-- Operations callable on a `VideoSourceAdapter`'s observer slot. -/
inductive AdapterOp : Type
  | regObs : Nat → AdapterOp
  | unregObs : Nat → AdapterOp
deriving DecidableEq, Repr

/-- Run a sequence of register/unregister calls on an adapter, keeping
only the final state. -/
def VideoSourceAdapter.applyOps (a : VideoSourceAdapter) : List AdapterOp → VideoSourceAdapter
  | [] => a
  | AdapterOp.regObs o :: rest => (a.RegisterObserver o).applyOps rest
  | AdapterOp.unregObs o :: rest => ((a.UnregisterObserver o).1).applyOps rest

/-- `mrsResult`: the result-code taxonomy of the interop boundary (spec
section 6). -/
inductive mrsResult : Type
  | success : mrsResult
  | invalidArgument : mrsResult
  | invalidHandle : mrsResult
  | notOpen : mrsResult
  | bufferFull : mrsResult
deriving DecidableEq, Repr

/-- `mrsDataChannelCallbacks` from `data_channel_interop.h`: three
(function pointer, context pointer) pairs — message, buffering, state.
A function pointer is `Option Nat` (`none` = null, i.e. the
value-initialized `{}` default); a context pointer is a `Nat`. -/
structure mrsDataChannelCallbacks where
  message_callback : Option Nat
  message_user_data : Nat
  buffering_callback : Option Nat
  buffering_user_data : Nat
  state_callback : Option Nat
  state_user_data : Nat
deriving DecidableEq, Repr

/-- The all-null callback set (`mrsDataChannelCallbacks{}`): every
function pointer null. -/
def mrsDataChannelCallbacks.nulls : mrsDataChannelCallbacks :=
  ⟨none, 0, none, 0, none, 0⟩

/-- Modelled from the spec: the data channel object behind an
`mrsDataChannelHandle`. The implementation file defining the channel
class is not under `src/` (only the `data_channel_interop.h`
declarations are); the state follows spec sections 3-4: a sendable/open
flag, the outbound buffer occupancy and its fixed capacity, the stored
callback set, and the user-data slot (`0` = the null sentinel, the
initial value). -/
structure DataChannel where
  isOpen : Bool
  buffered : Nat
  limit : Nat
  callbacks : mrsDataChannelCallbacks
  user_data : Nat
deriving DecidableEq, Repr

/-- Modelled from the spec: `mrsDataChannelSetUserData(handle,
user_data)` — the implementation is not under `src/`, only its
declaration; per the header comment and spec section 4.1, it stores the
pointer verbatim in the channel object, silently overwriting any prior
value. -/
def mrsDataChannelSetUserData (ch : DataChannel) (userData : Nat) : DataChannel :=
  { ch with user_data := userData }

/-- Modelled from the spec: `mrsDataChannelGetUserData(handle)` — the
implementation is not under `src/`, only its declaration; per the header
comment and spec section 4.1, it returns the stored pointer, which is
`nullptr` (here `0`) if never assigned. -/
def mrsDataChannelGetUserData (ch : DataChannel) : Nat :=
  ch.user_data

/-- Modelled from the spec: `mrsDataChannelRegisterCallbacks(handle,
callbacks)` — the implementation is not under `src/`, only its
declaration; per spec section 4.2 it replaces the channel's stored
message/buffering/state callback pairs in one call. -/
def mrsDataChannelRegisterCallbacks (ch : DataChannel)
    (cbs : mrsDataChannelCallbacks) : DataChannel :=
  { ch with callbacks := cbs }

/-- A native event on a data channel that would dispatch a callback. -/
inductive ChannelEvent : Type
  | message : Nat → Nat → ChannelEvent
  | buffering : Nat → Nat → Nat → ChannelEvent
  | stateChange : Int → Int → ChannelEvent
deriving DecidableEq, Repr

/-- A callback invocation that crossed the boundary: the function
pointer called, its context, and the event arguments. -/
inductive FiredCallback : Type
  | message : Nat → Nat → Nat → Nat → FiredCallback
  | buffering : Nat → Nat → Nat → Nat → Nat → FiredCallback
  | stateChange : Nat → Nat → Int → Int → FiredCallback
deriving DecidableEq, Repr

/-- Modelled from the spec: callback dispatch for a channel event (spec
section 4.2) — the dispatching implementation is not under `src/`; each
kind of event invokes the correspondingly stored callback with its
context if the function pointer is non-null, and nothing otherwise. -/
def dispatchEvent (cbs : mrsDataChannelCallbacks) : ChannelEvent → Option FiredCallback
  | ChannelEvent.message d n =>
    match cbs.message_callback with
    | some f => some (FiredCallback.message f cbs.message_user_data d n)
    | none => none
  | ChannelEvent.buffering p c l =>
    match cbs.buffering_callback with
    | some f => some (FiredCallback.buffering f cbs.buffering_user_data p c l)
    | none => none
  | ChannelEvent.stateChange s i =>
    match cbs.state_callback with
    | some f => some (FiredCallback.stateChange f cbs.state_user_data s i)
    | none => none

/-- Modelled from the spec: `mrsDataChannelSendMessage(handle, data,
size)` — the implementation is not under `src/`, only its declaration;
per spec sections 4.3 and 7 it fails with `invalidArgument` if `size` is
zero or `data` is null while `size > 0` (before touching native state),
with `notOpen` if the channel is not sendable, and with `bufferFull` —
closing the channel — if the send would exceed the buffer capacity;
otherwise the bytes enter the outbound buffer and it returns `success`.
The returned `Bool` records whether the native channel was contacted. -/
def mrsDataChannelSendMessage (ch : DataChannel) (dataPtr : Nat) (size : Nat) :
    mrsResult × DataChannel × Bool :=
  if size = 0 then (mrsResult.invalidArgument, ch, false)
  else if dataPtr = 0 then (mrsResult.invalidArgument, ch, false)
  else if !ch.isOpen then (mrsResult.notOpen, ch, false)
  else if ch.limit < ch.buffered + size then
    (mrsResult.bufferFull, { ch with isOpen := false }, true)
  else
    (mrsResult.success, { ch with buffered := ch.buffered + size }, true)

end WebRTC

/-! ## Claims about the data channel interop surface -/

/-- C7: `mrsDataChannelSendMessage(h, d, n)` returns `invalidArgument`
when `n` is zero, or when `d` is null while `n > 0`; in those cases the
native channel is not contacted and the channel state is unchanged; and
it returns `notOpen` when the channel is not in a sendable state. -/
theorem sendMessage_validates_arguments_and_state (ch : WebRTC.DataChannel)
    (d n : Nat) :
    (n = 0 ∨ (d = 0 ∧ 0 < n) →
      WebRTC.mrsDataChannelSendMessage ch d n =
        (WebRTC.mrsResult.invalidArgument, ch, false)) ∧
    (n ≠ 0 → d ≠ 0 → ch.isOpen = false →
      (WebRTC.mrsDataChannelSendMessage ch d n).1 = WebRTC.mrsResult.notOpen) := by
  constructor
  · rintro (rfl | ⟨rfl, -⟩) <;> simp [WebRTC.mrsDataChannelSendMessage]
  · intro hn hd hopen
    simp [WebRTC.mrsDataChannelSendMessage, hn, hd, hopen]

/-- C7 witness: concrete instances; `SendMessage(h, null, 5)` is
rejected as an invalid argument without contacting the native channel,
and sending on a closed channel reports `notOpen`. -/
theorem sendMessage_validates_arguments_and_state_witness :
    WebRTC.mrsDataChannelSendMessage ⟨true, 0, 100, WebRTC.mrsDataChannelCallbacks.nulls, 0⟩ 0 5 =
      (WebRTC.mrsResult.invalidArgument,
        ⟨true, 0, 100, WebRTC.mrsDataChannelCallbacks.nulls, 0⟩, false) ∧
    (WebRTC.mrsDataChannelSendMessage ⟨false, 0, 100, WebRTC.mrsDataChannelCallbacks.nulls, 0⟩ 7 5).1 =
      WebRTC.mrsResult.notOpen :=
  ⟨(sendMessage_validates_arguments_and_state _ 0 5).1 (Or.inr ⟨rfl, by decide⟩),
   (sendMessage_validates_arguments_and_state _ 7 5).2 (by decide) (by decide) rfl⟩

/-- C8: `mrsDataChannelGetUserData` returns exactly the value passed to
the most recent `mrsDataChannelSetUserData` on that channel; on a channel
whose slot was never set it returns the null sentinel `0`; `SetUserData`
stores the value verbatim, silently overwriting any prior value and
changing nothing else. -/
theorem userData_get_returns_last_set (ch : WebRTC.DataChannel) (v w : Nat) :
    WebRTC.mrsDataChannelGetUserData (WebRTC.mrsDataChannelSetUserData ch v) = v ∧
    WebRTC.mrsDataChannelSetUserData (WebRTC.mrsDataChannelSetUserData ch w) v =
      WebRTC.mrsDataChannelSetUserData ch v ∧
    (ch.user_data = 0 → WebRTC.mrsDataChannelGetUserData ch = 0) ∧
    (WebRTC.mrsDataChannelSetUserData ch v).isOpen = ch.isOpen ∧
    (WebRTC.mrsDataChannelSetUserData ch v).buffered = ch.buffered ∧
    (WebRTC.mrsDataChannelSetUserData ch v).limit = ch.limit ∧
    (WebRTC.mrsDataChannelSetUserData ch v).callbacks = ch.callbacks := by
  refine ⟨rfl, rfl, fun h => h, rfl, rfl, rfl, rfl⟩

/-- C8 witness: at a concrete channel, get-after-set returns the set
value, a second set overwrites the first, and the never-set slot reads as
the null sentinel. -/
theorem userData_get_returns_last_set_witness :
    WebRTC.mrsDataChannelGetUserData
      (WebRTC.mrsDataChannelSetUserData
        ⟨true, 0, 100, WebRTC.mrsDataChannelCallbacks.nulls, 0⟩ 42) = 42 ∧
    WebRTC.mrsDataChannelGetUserData
      ⟨true, 0, 100, WebRTC.mrsDataChannelCallbacks.nulls, 0⟩ = 0 :=
  ⟨(userData_get_returns_last_set _ 42 0).1,
   (userData_get_returns_last_set ⟨true, 0, 100, WebRTC.mrsDataChannelCallbacks.nulls, 0⟩ 42 0).2.2.1 rfl⟩

/-- C9: one call to `mrsDataChannelRegisterCallbacks` replaces all three
stored (callback, context) pairs with those in the argument; and after a
registration whose three function pointers are all null, no callback of
any kind fires for any subsequent event on the channel. -/
theorem registerCallbacks_replaces_all_and_nulls_silence
    (ch : WebRTC.DataChannel) (cbs : WebRTC.mrsDataChannelCallbacks)
    (e : WebRTC.ChannelEvent) :
    (WebRTC.mrsDataChannelRegisterCallbacks ch cbs).callbacks = cbs ∧
    WebRTC.dispatchEvent
      (WebRTC.mrsDataChannelRegisterCallbacks ch WebRTC.mrsDataChannelCallbacks.nulls).callbacks
      e = none := by
  refine ⟨rfl, ?_⟩
  cases e <;> rfl

/-! ## Helper lemmas (shared) -/

/-- Running an adapter-op history splits across append. -/
theorem applyOps_append (a : WebRTC.VideoSourceAdapter) (l₁ l₂ : List WebRTC.AdapterOp) :
    a.applyOps (l₁ ++ l₂) = (a.applyOps l₁).applyOps l₂ := by
  induction l₁ generalizing a with
  | nil => rfl
  | cons op rest ih =>
    cases op <;> simp [WebRTC.VideoSourceAdapter.applyOps, ih]

/-- A pair list whose first projections are exactly `[i]` loses all its
elements when filtering out first component `i`. -/
theorem filter_ne_of_map_fst_singleton (l : List (Nat × WebRTC.VideoSinkWants)) (i : Nat)
    (h : l.map Prod.fst = [i]) : l.filter (fun p => p.1 ≠ i) = [] := by
  cases l with
  | nil => simp at h
  | cons p rest =>
    simp at h
    obtain ⟨h1, h2⟩ := h
    subst h2
    simp [List.filter, h1]

/-- Removing a sink leaves it unregistered with the native source. -/
theorem hasSink_RemoveSink (src : WebRTC.NativeVideoSource) (i : Nat) :
    (src.RemoveSink i).hasSink i = false := by
  rcases src with ⟨l⟩
  simp [WebRTC.NativeVideoSource.RemoveSink, WebRTC.NativeVideoSource.hasSink]

/-! ## Claims about the video source adapter -/

/-- C10: `VideoSourceAdapter.UnregisterObserver(o)`'s debug assertion
`RTC_DCHECK_EQ(observer_, o)` holds whenever the most recent
`RegisterObserver` call passed `o` and no `UnregisterObserver`
intervened; after `UnregisterObserver` returns, no observer is
registered; and `RegisterObserver(o')` unconditionally replaces any
previously registered observer. -/
theorem adapter_observer_slot_semantics (a b : WebRTC.VideoSourceAdapter)
    (ops : List WebRTC.AdapterOp) (o q : Nat) :
    (a.applyOps (ops ++ [WebRTC.AdapterOp.regObs o])).observer_ = o ∧
    ((a.applyOps (ops ++ [WebRTC.AdapterOp.regObs o])).UnregisterObserver o).2 = true ∧
    (b.UnregisterObserver q).1.observer_ = 0 ∧
    (b.RegisterObserver q).observer_ = q := by
  have h : (a.applyOps (ops ++ [WebRTC.AdapterOp.regObs o])).observer_ = o := by
    rw [applyOps_append]
    rfl
  refine ⟨h, ?_, rfl, rfl⟩
  simp [WebRTC.VideoSourceAdapter.UnregisterObserver, h]

/-! ## Claims about the video track source observer lifecycle -/

/-- C1: after `SetCallback(s, cb)` followed by `SetCallback(s, null)`,
the observer is gone, frame delivery invokes no callback for `s` (until
a later non-null registration creates a new observer), and the detach's
`RemoveSink` call happens before the lock is released, i.e. before the
call returns. -/
theorem detach_unregisters_before_return (st : WebRTC.VideoTrackSource) (cb : Nat) :
    ((st.SetCallback (some cb)).1.SetCallback none).1.observer_ = none ∧
    WebRTC.VideoTrackSource.deliverFrame ((st.SetCallback (some cb)).1.SetCallback none).1 = [] ∧
    ∃ i, ((st.SetCallback (some cb)).1.SetCallback none).2 =
      [WebRTC.Event.lockAcquire, WebRTC.Event.removeSink i,
       WebRTC.Event.destroyObserver i, WebRTC.Event.lockRelease] := by
  cases h : st.observer_ <;>
    simp [WebRTC.VideoTrackSource.SetCallback, h, WebRTC.VideoTrackSource.deliverFrame]

/-- C2 counterexample: in the execution `SetCallback(non-null)` from the
freshly constructed state, the native `AddOrUpdateSink` call occurs while
the exclusive observer lock is held (the `std::lock_guard` spans the
whole body), so the claim that the lock is never held across the native
sink registration/unregistration calls is false. -/
theorem lock_not_released_around_native_calls :
    WebRTC.noNativeCallUnderLock
      ((WebRTC.VideoTrackSource.initial.SetCallback (some 1)).2) = false ∧
    (WebRTC.VideoTrackSource.initial.SetCallback (some 1)).2 =
      [WebRTC.Event.lockAcquire, WebRTC.Event.constructObserver 0,
       WebRTC.Event.addOrUpdateSink 0 ⟨true⟩, WebRTC.Event.storeCallback 1,
       WebRTC.Event.lockRelease] := by
  exact ⟨by decide, by decide⟩

/-- C2 amended: in every execution of `SetCallback`, the exclusive
observer lock is acquired on entry and released only at return, and
every native sink registration/unregistration call (`AddOrUpdateSink` /
`RemoveSink`) performed by `SetCallback` occurs while that lock is
held. -/
theorem lock_held_across_whole_setCallback (st : WebRTC.VideoTrackSource)
    (cb : Option Nat) :
    WebRTC.allNativeCallsUnderLock (st.SetCallback cb).2 = true ∧
    (st.SetCallback cb).2.head? = some WebRTC.Event.lockAcquire ∧
    (st.SetCallback cb).2.getLast? = some WebRTC.Event.lockRelease := by
  cases cb <;> cases h : st.observer_ <;>
    simp [WebRTC.VideoTrackSource.SetCallback, h, WebRTC.allNativeCallsUnderLock,
      WebRTC.allNativeCallsUnderLockAux, WebRTC.Event.isNativeSinkCall]

/-- C3: `SetCallback(s, cb)` with non-null `cb` while detached constructs
exactly one observer and registers it with the native source exactly
once, with sink settings requesting rotation applied, storing `cb` in
it; a subsequent non-null `SetCallback(s, cb2)` while attached performs
zero native sink registrations and only updates the stored callback. -/
theorem setCallback_nonnull_registers_exactly_once (st : WebRTC.VideoTrackSource)
    (obs : WebRTC.VideoFrameObserver) (cb cb2 : Nat) :
    (st.observer_ = none →
      st.SetCallback (some cb) =
        ({ source_ := st.source_.AddOrUpdateSink st.nextObserverId ⟨true⟩,
           observer_ := some ⟨st.nextObserverId, some cb⟩,
           nextObserverId := st.nextObserverId + 1 },
         [WebRTC.Event.lockAcquire, WebRTC.Event.constructObserver st.nextObserverId,
          WebRTC.Event.addOrUpdateSink st.nextObserverId ⟨true⟩,
          WebRTC.Event.storeCallback cb, WebRTC.Event.lockRelease])) ∧
    (st.observer_ = some obs →
      st.SetCallback (some cb2) =
        ({ st with observer_ := some ⟨obs.id, some cb2⟩ },
         [WebRTC.Event.lockAcquire, WebRTC.Event.storeCallback cb2,
          WebRTC.Event.lockRelease])) := by
  constructor
  · intro h
    simp [WebRTC.VideoTrackSource.SetCallback, h]
  · intro h
    simp [WebRTC.VideoTrackSource.SetCallback, h]

/-- C3 witness: from the freshly constructed (detached) state, a first
registration emits exactly one `constructObserver` and one
`addOrUpdateSink` (with `rotation_applied = true`) and stores the
callback; a second registration with a different callback emits no
native sink call and only swaps the stored callback. -/
theorem setCallback_nonnull_registers_exactly_once_witness :
    WebRTC.VideoTrackSource.initial.SetCallback (some 1) =
      ({ source_ := ⟨[(0, ⟨true⟩)]⟩, observer_ := some ⟨0, some 1⟩, nextObserverId := 1 },
       [WebRTC.Event.lockAcquire, WebRTC.Event.constructObserver 0,
        WebRTC.Event.addOrUpdateSink 0 ⟨true⟩, WebRTC.Event.storeCallback 1,
        WebRTC.Event.lockRelease]) ∧
    (WebRTC.VideoTrackSource.initial.SetCallback (some 1)).1.SetCallback (some 2) =
      ({ source_ := ⟨[(0, ⟨true⟩)]⟩, observer_ := some ⟨0, some 2⟩, nextObserverId := 1 },
       [WebRTC.Event.lockAcquire, WebRTC.Event.storeCallback 2,
        WebRTC.Event.lockRelease]) := by
  constructor
  · have h := (setCallback_nonnull_registers_exactly_once
      WebRTC.VideoTrackSource.initial ⟨0, some 1⟩ 1 2).1 rfl
    exact h.trans (by decide)
  · have h := (setCallback_nonnull_registers_exactly_once
      (WebRTC.VideoTrackSource.initial.SetCallback (some 1)).1 ⟨0, some 1⟩ 1 2).2 (by decide)
    exact h.trans (by decide)

/-- C4: `SetCallback(s, null)` while attached removes the observer's
sink from the native source and destroys the observer (in that order),
transitioning to detached; while detached it changes nothing; hence a
second consecutive `SetCallback(s, null)` is a no-op performing no
native sink call (idempotent detach, no double-unregistration). -/
theorem setCallback_null_idempotent_detach (st : WebRTC.VideoTrackSource)
    (obs : WebRTC.VideoFrameObserver) :
    (st.observer_ = some obs →
      st.SetCallback none =
        ({ st with source_ := st.source_.RemoveSink obs.id, observer_ := none },
         [WebRTC.Event.lockAcquire, WebRTC.Event.removeSink obs.id,
          WebRTC.Event.destroyObserver obs.id, WebRTC.Event.lockRelease]) ∧
      (st.SetCallback none).1.source_.hasSink obs.id = false) ∧
    (st.observer_ = none →
      st.SetCallback none = (st, [WebRTC.Event.lockAcquire, WebRTC.Event.lockRelease])) ∧
    (st.SetCallback none).1.SetCallback none =
      ((st.SetCallback none).1, [WebRTC.Event.lockAcquire, WebRTC.Event.lockRelease]) := by
  refine ⟨fun h => ⟨?_, ?_⟩, fun h => ?_, ?_⟩
  · simp [WebRTC.VideoTrackSource.SetCallback, h]
  · simp [WebRTC.VideoTrackSource.SetCallback, h, hasSink_RemoveSink]
  · simp [WebRTC.VideoTrackSource.SetCallback, h]
  · cases h : st.observer_ <;> simp [WebRTC.VideoTrackSource.SetCallback, h]

/-- C4 witness: detaching an attached concrete source removes its sink
and leaves it unregistered; detaching the fresh (detached) source
changes nothing; and the second of two consecutive detaches is a
no-op. -/
theorem setCallback_null_idempotent_detach_witness :
    (WebRTC.VideoTrackSource.initial.SetCallback (some 1)).1.SetCallback none =
      ({ source_ := ⟨[]⟩, observer_ := none, nextObserverId := 1 },
       [WebRTC.Event.lockAcquire, WebRTC.Event.removeSink 0,
        WebRTC.Event.destroyObserver 0, WebRTC.Event.lockRelease]) ∧
    WebRTC.VideoTrackSource.initial.SetCallback none =
      (WebRTC.VideoTrackSource.initial,
       [WebRTC.Event.lockAcquire, WebRTC.Event.lockRelease]) := by
  constructor
  · have h := (setCallback_null_idempotent_detach
      (WebRTC.VideoTrackSource.initial.SetCallback (some 1)).1 ⟨0, some 1⟩).1 (by decide)
    exact h.1.trans (by decide)
  · exact (setCallback_null_idempotent_detach
      WebRTC.VideoTrackSource.initial ⟨0, none⟩).2.1 rfl

/-- C5: every operation preserves the wrapper invariant: the (at most
one) observer exists iff it is registered as the sole sink with the
native source. The invariant holds at construction, is preserved by
`SetCallback` with any argument, forces at most one registered sink, and
destruction ends with no sink registered. -/
theorem observer_sink_invariant (st : WebRTC.VideoTrackSource) (cb : Option Nat) :
    WebRTC.VideoTrackSource.initial.wf = true ∧
    (st.wf = true → (st.SetCallback cb).1.wf = true) ∧
    (st.wf = true → st.destructor.1.sinks = []) ∧
    (st.wf = true → (st.observer_.isSome ↔ st.source_.sinks ≠ [])) ∧
    (st.wf = true → st.source_.sinks.length ≤ 1) := by
  refine ⟨rfl, fun h => ?_, fun h => ?_, fun h => ?_, fun h => ?_⟩
  · cases hc : cb <;> cases ho : st.observer_ <;>
      simp [WebRTC.VideoTrackSource.wf, ho] at h <;>
      simp [WebRTC.VideoTrackSource.SetCallback, WebRTC.VideoTrackSource.wf, ho]
    · exact h
    · simp [WebRTC.NativeVideoSource.RemoveSink]
      intro a b hmem
      have ha : a ∈ st.source_.sinks.map Prod.fst := List.mem_map_of_mem _ hmem
      rw [h.1] at ha
      simpa using ha
    · simp [WebRTC.NativeVideoSource.AddOrUpdateSink, h]
    · exact h
  · cases ho : st.observer_ <;>
      simp [WebRTC.VideoTrackSource.wf, ho] at h <;>
      simp [WebRTC.VideoTrackSource.destructor, ho]
    · exact h
    · simp [WebRTC.NativeVideoSource.RemoveSink]
      intro a b hmem
      have ha : a ∈ st.source_.sinks.map Prod.fst := List.mem_map_of_mem _ hmem
      rw [h.1] at ha
      simpa using ha
  · cases ho : st.observer_ <;> simp [WebRTC.VideoTrackSource.wf, ho] at h <;> simp
    · exact h
    · intro hnil
      rw [hnil] at h
      simp at h
  · cases ho : st.observer_ <;> simp [WebRTC.VideoTrackSource.wf, ho] at h
    · simp [h]
    · have : st.source_.sinks.length = 1 := by
        have := congrArg List.length h.1
        simpa using this
      omega

/-- C5 witness: the invariant holds at the fresh state, survives a
concrete attach, and that attached state's destruction leaves no sink
registered. -/
theorem observer_sink_invariant_witness :
    WebRTC.VideoTrackSource.initial.wf = true ∧
    (WebRTC.VideoTrackSource.initial.SetCallback (some 5)).1.wf = true ∧
    (WebRTC.VideoTrackSource.initial.SetCallback (some 5)).1.destructor.1.sinks = [] :=
  ⟨(observer_sink_invariant WebRTC.VideoTrackSource.initial (some 5)).1,
   (observer_sink_invariant WebRTC.VideoTrackSource.initial (some 5)).2.1 rfl,
   (observer_sink_invariant (WebRTC.VideoTrackSource.initial.SetCallback (some 5)).1
      none).2.2.1 (by decide)⟩

/-- C6: if an observer is attached when the track source is destroyed,
the destructor calls `RemoveSink` before the observer is destroyed and
the observer ends unregistered (no frame can be delivered to the
destroyed adapter); if no observer is attached, destruction performs no
sink removal. -/
theorem destructor_removes_sink_before_destroy (st : WebRTC.VideoTrackSource)
    (obs : WebRTC.VideoFrameObserver) :
    (st.observer_ = some obs →
      st.destructor = (st.source_.RemoveSink obs.id,
        [WebRTC.Event.removeSink obs.id, WebRTC.Event.destroyObserver obs.id]) ∧
      st.destructor.1.hasSink obs.id = false) ∧
    (st.observer_ = none → st.destructor = (st.source_, [])) := by
  refine ⟨fun h => ?_, fun h => ?_⟩
  · simp [WebRTC.VideoTrackSource.destructor, h, hasSink_RemoveSink]
  · simp [WebRTC.VideoTrackSource.destructor, h]

/-- C6 witness: destroying a concrete attached source removes its sink
first and leaves it unregistered; destroying the fresh detached source
performs no sink removal. -/
theorem destructor_removes_sink_before_destroy_witness :
    (WebRTC.VideoTrackSource.initial.SetCallback (some 1)).1.destructor =
      (⟨[]⟩, [WebRTC.Event.removeSink 0, WebRTC.Event.destroyObserver 0]) ∧
    WebRTC.VideoTrackSource.initial.destructor = (⟨[]⟩, []) := by
  constructor
  · have h := (destructor_removes_sink_before_destroy
      (WebRTC.VideoTrackSource.initial.SetCallback (some 1)).1 ⟨0, some 1⟩).1 (by decide)
    exact h.1.trans (by decide)
  · exact (destructor_removes_sink_before_destroy
      WebRTC.VideoTrackSource.initial ⟨0, none⟩).2 rfl
